import Mathlib

/-!
Shallow embedding of the live-slide-enhancer core (src/main.py,
src/content_generator.py, src/slide_updater.py).

Conventions of the embedding:
* Python `None` and Python-falsy values read through `dict.get` are modelled
  by `Option.none`; a present, truthy value by `Option.some`.
* Caught exceptions at external-call boundaries (the Gemini API, COM, file
  I/O) are modelled by the external call returning `none`.
* Machine floats appear only as stored geometry that the code never compares
  or rounds; they are embedded as exact rationals.
* External collaborators (the language model, json.loads, the visual
  fetchers, the on-disk deck) are parameters collected in `Env`; every
  in-repository function is translated from the source.
-/

namespace SlideEnhancer

/-- Chart specification carried under the "chart_data" key of a generated
slide-content object (consumed opaquely by the external chart renderer). -/
structure ChartSpec where
  type : Option String
  labels : List String
  values : List Int
  title : Option String
  deriving DecidableEq

/-- Structured slide content as parsed from the model's JSON response
(content_generator.py).  `none` in an optional field models an absent key,
a JSON null, or a Python-falsy value read through `dict.get`. -/
structure ContentJson where
  title : Option String
  points : List String
  image_suggestion : Option String
  layout : Option String
  chart_data : Option ChartSpec
  deriving DecidableEq

/-- Style guide dictionary produced by ThemeAnalyzer.get_style.  The two
color fields store the integer value the code obtains by parsing the hex
string (int(style_guide[...], 16)); both keys are required by the code. -/
structure StyleGuide where
  title_font_name : Option String
  title_font_size : Option Int
  body_font_name : Option String
  body_font_size : Option Int
  primary_color_rgb : Int
  accent_color_rgb : Int
  deriving DecidableEq

/-- PowerPoint alignment constant from slide_updater.py. -/
def ppAlignCenter : Nat := 2

/-- PowerPoint alignment constant from slide_updater.py. -/
def ppAlignLeft : Nat := 1

/-- Shape placed on a live slide by `_add_content_to_slide`: each field
records exactly the attributes the code sets (an `Option` field is `none`
when the code leaves the attribute untouched). -/
inductive Shape where
  | textbox (left top width height : Rat) (text : String)
      (fontName : Option String) (fontSize : Option Int) (bold : Bool)
      (colorRGB : Int) (align : Option Nat) (bullets : Bool)
  | picture (path : String) (left top width height : Rat)
  deriving DecidableEq

/-- Slide of the live COM presentation: its ordered shape collection. -/
structure COMSlide where
  shapes : List Shape
  deriving DecidableEq

/-- Live COM presentation: 1-based slide list plus the slideshow's
CurrentShowPosition. -/
structure Pres where
  slides : List COMSlide
  showPosition : Nat
  deriving DecidableEq

/-- Shape of the on-disk deck as read by python-pptx in
`get_text_from_slide`: `text_frame_text = none` models a shape without a
text_frame attribute. -/
structure PptxShape where
  text_frame_text : Option String
  deriving DecidableEq

/-- On-disk deck as read by python-pptx (list of slides, each a list of
shapes). -/
structure PptxDeck where
  slides : List (List PptxShape)
  deriving DecidableEq

/-- External collaborators of the core, fixed for a run: json.loads
restricted to the slide-content schema, the model's replies to the two
prompts, the three visual fetchers, the filesystem-existence test, and the
on-disk deck view (none models a missing or unreadable file).  Each returns
`none` where the Python call raises or yields a falsy result. -/
structure Env where
  loads : String → Option ContentJson
  content_response : String → Option String
  deviation_response : String → String → Option String
  create_chart : ChartSpec → Option String
  get_icon : String → Option String
  get_image : String → Option String
  path_exists : String → Bool
  deck_file : Option PptxDeck

/-! ### content_generator.py -/

/-- Python str.strip over the character list: remove leading and trailing
whitespace. -/
def pyStrip (cs : List Char) : List Char :=
  ((cs.dropWhile Char.isWhitespace).reverse.dropWhile Char.isWhitespace).reverse

/-- Python str.strip on strings. -/
def pyTrim (s : String) : String := String.mk (pyStrip s.toList)

/-- Python str.lower. -/
def pyLower (s : String) : String := String.mk (s.toList.map Char.toLower)

/-- Newline normalisation performed by str.splitlines: a \r\n pair and a
lone \r both separate lines like \n does. -/
def normalizeNewlines : List Char → List Char
  | [] => []
  | '\r' :: '\n' :: rest => '\n' :: normalizeNewlines rest
  | '\r' :: rest => '\n' :: normalizeNewlines rest
  | c :: rest => c :: normalizeNewlines rest

/-- Split a character list on a separator character (the semantics of
splitting on a one-character separator). -/
def splitOnChar (sep : Char) : List Char → List (List Char)
  | [] => [[]]
  | c :: rest =>
    if c = sep then [] :: splitOnChar sep rest
    else
      match splitOnChar sep rest with
      | [] => [[c]]
      | g :: gs => (c :: g) :: gs

/-- Python str.splitlines on already-stripped text: normalise the newline
variants, split on \n; the empty string yields the empty list (so indexing
[-1] raises, which callers catch).  On text with no trailing newline — as
after str.strip — this agrees with Python's splitlines. -/
def pySplitlines (s : String) : List String :=
  let t := normalizeNewlines s.toList
  if t = [] then [] else (splitOnChar '\n' t).map String.mk

/-- ContentGenerator.check_for_deviation (content_generator.py lines 24-41):
`response = none` models the generate_content call raising (the except
branch returns None); otherwise the last line of the stripped reply is the
candidate topic, rejected when it is empty or the literal "none"
case-insensitively. -/
def check_for_deviation (response : Option String) : Option String :=
  match response with
  | none => none
  | some text =>
    match (pySplitlines (pyTrim text)).getLast? with
    | none => none
    | some line =>
      let new_topic := pyTrim line
      if pyLower new_topic ≠ "none" ∧ new_topic.length > 0 then some new_topic
      else none

/-- Rightmost index of a character in a character list (Python str.rindex;
`none` models the ValueError). -/
def rIndexOfChar (c : Char) (cs : List Char) : Option Nat :=
  match cs.reverse.indexOf? c with
  | none => none
  | some k => some (cs.length - 1 - k)

/-- ContentGenerator._extract_json (content_generator.py lines 13-22): slice
the text from the first opening brace to the last closing brace and hand the
slice to json.loads (the `loads` parameter); a missing brace raises
ValueError, caught to None. -/
def extractJson (loads : String → Option ContentJson) (text : String) :
    Option ContentJson :=
  let cs := text.toList
  match cs.indexOf? '{', rIndexOfChar '}' cs with
  | some start_index, some last_brace =>
    let json_str := String.mk ((cs.drop start_index).take (last_brace + 1 - start_index))
    loads json_str
  | _, _ => none

/-- Python truthiness of the parsed content dict (`if content_json:`): a
dict is falsy iff empty, which the schema record approximates as every
field absent or empty. -/
def contentTruthy (c : ContentJson) : Bool :=
  c.title.isSome || !c.points.isEmpty || c.image_suggestion.isSome ||
    c.layout.isSome || c.chart_data.isSome

/-- ContentGenerator.generate_slide_content (content_generator.py lines
43-79): `response = none` models the API call raising (caught to None);
otherwise the reply text goes through _extract_json, and a falsy parse is
returned as None. -/
def generate_slide_content (loads : String → Option ContentJson)
    (response : Option String) : Option ContentJson :=
  match response with
  | none => none
  | some text =>
    match extractJson loads text with
    | some content_json => if contentTruthy content_json then some content_json else none
    | none => none

/-! ### slide_updater.py -/

/-- SlideUpdater.get_current_slide_index (slide_updater.py lines 44-49):
None when no active presentation is found, otherwise the slideshow's
CurrentShowPosition. -/
def get_current_slide_index (pres : Option Pres) : Option Nat :=
  match pres with
  | none => none
  | some p => some p.showPosition

/-- SlideUpdater.get_text_from_slide (slide_updater.py lines 51-63):
empty string when the deck file is missing or unreadable (`deck = none`)
or the 1-based index is out of range; otherwise the non-empty text-frame
texts of the slide's shapes joined by newlines.  Any internal exception is
caught to the empty string, so the embedding is total. -/
def get_text_from_slide (deck : Option PptxDeck) (slide_index : Int) : String :=
  match deck with
  | none => ""
  | some prs =>
    if 0 < slide_index ∧ slide_index ≤ prs.slides.length then
      let shapes := prs.slides.getD (slide_index - 1).toNat []
      let texts := shapes.filterMap (fun sh =>
        match sh.text_frame_text with
        | some t => if t = "" then none else some t
        | none => none)
      String.intercalate "\n" texts
    else ""

/-- Inch-to-points conversion used by `_add_content_to_slide`. -/
def inch_to_points (i : Rat) : Rat := i * 72

/-- Visual-resolution block at the top of SlideUpdater._add_content_to_slide
(slide_updater.py lines 70-77): a chart, when specified, takes priority and
the image path is not consulted; otherwise an icon lookup with image
fallback; a chart-creation failure does not fall through to an image. -/
def resolve_visual (env : Env) (content_json : ContentJson) : Option String :=
  match content_json.chart_data with
  | some cd => env.create_chart cd
  | none =>
    match content_json.image_suggestion with
    | some q =>
      match env.get_icon q with
      | some p => some p
      | none => env.get_image q
    | none => none

/-- SlideUpdater._add_content_to_slide (slide_updater.py lines 65-117):
appends to the target slide's shapes a title textbox, a body textbox, the
watermark textbox, and — when a visual was resolved and its file exists —
the picture.  Geometry, fonts and alignment are the ones the code sets. -/
def _add_content_to_slide (env : Env) (content_json : ContentJson)
    (style_guide : StyleGuide) (shapes0 : List Shape) : List Shape :=
  let visual_path := resolve_visual env content_json
  let text_box_width := if visual_path.isSome then inch_to_points (11/2) else inch_to_points 9
  let title_box := Shape.textbox (inch_to_points (1/2)) (inch_to_points (1/5))
      text_box_width (inch_to_points (3/2))
      (content_json.title.getD "New Topic")
      (some (style_guide.title_font_name.getD "Calibri"))
      (some (style_guide.title_font_size.getD 32))
      true style_guide.primary_color_rgb
      (some (if visual_path.isNone then ppAlignCenter else ppAlignLeft)) false
  let body_text := content_json.points.foldl (fun acc p => acc ++ p ++ "\r\n") ""
  let body_box := Shape.textbox (inch_to_points (1/2)) (inch_to_points (9/5))
      text_box_width (inch_to_points 5) body_text
      (some (style_guide.body_font_name.getD "Calibri"))
      (some (style_guide.body_font_size.getD 18))
      false style_guide.accent_color_rgb (some ppAlignLeft) true
  let logo_box := Shape.textbox (inch_to_points (1/5)) (inch_to_points (36/5))
      (inch_to_points 2) (inch_to_points (1/2))
      "Updated live by Savi.ai" none (some 10) false 0xA0A0A0 none false
  let base := shapes0 ++ [title_box, body_box, logo_box]
  match visual_path with
  | some p =>
    if env.path_exists p then
      base ++ [Shape.picture p (inch_to_points 6) (inch_to_points (5/2))
                 (inch_to_points (7/2)) (inch_to_points (7/2))]
    else base
  | none => base

/-- SlideUpdater.insert_new_slide_after_current (slide_updater.py lines
119-129): no-op when no active presentation is found; otherwise a blank
slide is added at position current+1 (1-based), filled by
_add_content_to_slide, the show navigates to it and the deck is saved.  An
invalid COM position raises before any mutation, caught to a no-op. -/
def insert_new_slide_after_current (env : Env) (pres : Option Pres)
    (slide_index : Nat) (content_json : ContentJson) (style_guide : StyleGuide) :
    Option Pres :=
  match pres with
  | none => none
  | some p =>
    let new_slide_index := slide_index + 1
    if 1 ≤ new_slide_index ∧ new_slide_index ≤ p.slides.length + 1 then
      let newShapes := _add_content_to_slide env content_json style_guide []
      some { slides := p.slides.insertIdx (new_slide_index - 1) ⟨newShapes⟩,
             showPosition := new_slide_index }
    else some p

/-- SlideUpdater.update_existing_slide (slide_updater.py lines 131-141):
no-op when no active presentation is found; an out-of-range COM index
raises before any mutation, caught to a no-op; otherwise every existing
shape on the slide is deleted, the content is laid out fresh, the show
navigates to the slide and the deck is saved. -/
def update_existing_slide (env : Env) (pres : Option Pres)
    (slide_index : Nat) (content_json : ContentJson) (style_guide : StyleGuide) :
    Option Pres :=
  match pres with
  | none => none
  | some p =>
    if 1 ≤ slide_index ∧ slide_index ≤ p.slides.length then
      let newShapes := _add_content_to_slide env content_json style_guide []
      some { slides := p.slides.set (slide_index - 1) ⟨newShapes⟩,
             showPosition := slide_index }
    else some p

/-! ### main.py -/

/-- Capacity of the speech buffer: `deque(maxlen=10)` (main.py line 50). -/
def SPEECH_BUFFER_CAPACITY : Nat := 10

/-- Appending to a `deque(maxlen=10)`: at capacity the oldest (head) entry
is silently discarded before the new entry joins the tail. -/
def bufferPush (buf : List String) (x : String) : List String :=
  if SPEECH_BUFFER_CAPACITY ≤ buf.length then buf.tail ++ [x] else buf ++ [x]

/-- Draining the transcription queue into the speech buffer
(Application.process_speech_queue, main.py lines 174-178): each queued
utterance is appended in arrival order. -/
def bufferPushAll (buf : List String) (xs : List String) : List String :=
  xs.foldl bufferPush buf

/-- Coarse status shown by the UI status label, restricted to the values
the core sets at the end of a control step (main.py `_set_status` calls):
generating covers "New topic ... Generating content...",
failedGenerate covers "Failed to generate content. Listening...". -/
inductive Status where
  | idle
  | listening
  | generating
  | failedGenerate
  deriving DecidableEq

/-- Mutable application state of Application (main.py lines 43-61)
restricted to the fields the core logic reads or writes.  `has_updater`
models `self.slide_updater is not None`; `pres` is the live COM
presentation `_get_active_presentation` finds (none when no active show). -/
structure AppState where
  is_running : Bool
  is_checking : Bool
  has_updater : Bool
  speech_buffer : List String
  generated_slide_indices : Finset Nat
  style_guide : StyleGuide
  pres : Option Pres
  status : Status
  deriving DecidableEq

/-- Arguments of a spawned `_generate_and_apply` thread (main.py line 227). -/
structure ApplyReq where
  topic : String
  slide_index : Nat
  is_update : Bool
  deriving DecidableEq

/-- Application._generate_and_apply (main.py lines 229-243), run on its own
thread: generate content; on a null result only the status changes to the
failure message; on success the update path rewrites the slide in place
while the insert path inserts at current+1 and then registers current+1 in
generated_slide_indices unconditionally — the insert call swallows its own
errors and returns nothing. -/
def _generate_and_apply (env : Env) (req : ApplyReq) (s : AppState) : AppState :=
  match generate_slide_content env.loads (env.content_response req.topic) with
  | some content =>
    if req.is_update then
      { s with pres := update_existing_slide env s.pres req.slide_index content s.style_guide,
               status := Status.listening }
    else
      let new_slide_index := req.slide_index + 1
      { s with pres := insert_new_slide_after_current env s.pres req.slide_index content s.style_guide,
               generated_slide_indices := insert new_slide_index s.generated_slide_indices,
               status := Status.listening }
  | none => { s with status := Status.failedGenerate }

/-- Application.run_deviation_check (main.py lines 188-206), one detection
cycle.  The early returns (no updater, fewer than 3 buffered utterances, a
falsy current index) only execute the `finally` reset of is_checking.
Otherwise the buffer is read joined by spaces, the deviation check runs,
and only on a detected deviation is the buffer cleared and an apply request
dispatched (handle_update, which spawns `_generate_and_apply` as a thread —
returned here as the second component). -/
def run_deviation_check (env : Env) (s : AppState) : AppState × Option ApplyReq :=
  if !s.has_updater || s.speech_buffer.length < 3 then
    ({ s with is_checking := false }, none)
  else
    match get_current_slide_index s.pres with
    | none => ({ s with is_checking := false }, none)
    | some current_index =>
      if current_index = 0 then ({ s with is_checking := false }, none)
      else
        let slide_text0 := get_text_from_slide env.deck_file current_index
        let slide_text := if pyTrim slide_text0 = "" then "An empty slide." else slide_text0
        let recent_speech := String.intercalate " " s.speech_buffer
        match check_for_deviation (env.deviation_response slide_text recent_speech) with
        | some new_topic =>
          let is_update_action := decide (current_index ∈ s.generated_slide_indices)
          ({ s with speech_buffer := [], status := Status.generating, is_checking := false },
           some { topic := new_topic, slide_index := current_index,
                  is_update := is_update_action })
        | none =>
          ({ s with status := Status.listening, is_checking := false }, none)

/-- Guard periodic_check evaluates before spawning a detection cycle
(main.py line 181): running and no check already in flight. -/
def periodic_check_spawn_guard (s : AppState) : Bool :=
  s.is_running && !s.is_checking

/-- Guard handle_update evaluates before spawning `_generate_and_apply`
(main.py line 227): the thread is started unconditionally — no lock is
taken and no in-flight flag is consulted. -/
def handle_update_spawn_guard (_s : AppState) : Bool := true

/-- Observable step of a spawned `_generate_and_apply` thread at the
granularity of the concurrency claim: the content-generation call, then the
deck mutation; `task` identifies the thread. -/
inductive ApplyPhase where
  | generate (task : Nat)
  | mutate (task : Nat)
  deriving DecidableEq

/-- Task a phase belongs to. -/
def ApplyPhase.task : ApplyPhase → Nat
  | .generate t => t
  | .mutate t => t

/-- Subsequence of a schedule executed by one task. -/
def stepsOfTask (sched : List ApplyPhase) (t : Nat) : List ApplyPhase :=
  sched.filter (fun st => st.task == t)

/-- Interleavings of two spawned `_generate_and_apply` threads (tasks 0 and
1) that the code admits.  Because handle_update spawns without any lock or
in-flight flag (handle_update_spawn_guard is constantly true) and
`_generate_and_apply` itself takes no lock, the only constraint is each
thread's own program order: generate before mutate. -/
def apply_schedule_admitted (sched : List ApplyPhase) : Bool :=
  stepsOfTask sched 0 == [ApplyPhase.generate 0, ApplyPhase.mutate 0] &&
  stepsOfTask sched 1 == [ApplyPhase.generate 1, ApplyPhase.mutate 1]

/-- In a schedule of tasks 0 (first request) and 1 (second request): does
the second task begin its deck mutation before the first task has finished
(i.e. before the first's own mutation, its final step)? -/
def second_mutates_before_first_done (sched : List ApplyPhase) : Bool :=
  match sched.indexOf? (ApplyPhase.mutate 1), sched.indexOf? (ApplyPhase.mutate 0) with
  | some j, some i => j < i
  | _, _ => false

/-! ### Concrete fixtures for witnesses and counterexamples -/

/-- Simple style guide fixture. -/
def sgA : StyleGuide :=
  { title_font_name := some "Arial", title_font_size := some 30,
    body_font_name := some "Arial", body_font_size := some 16,
    primary_color_rgb := 0x112233, accent_color_rgb := 0x445566 }

/-- Environment fixture whose external calls all fail or return nothing. -/
def envNull : Env :=
  { loads := fun _ => none
    content_response := fun _ => none
    deviation_response := fun _ _ => none
    create_chart := fun _ => none
    get_icon := fun _ => none
    get_image := fun _ => none
    path_exists := fun _ => false
    deck_file := none }

/-- On-disk deck fixture: one slide with a text shape, a shape without a
text frame, and a shape with empty text. -/
def pdeckA : PptxDeck :=
  { slides := [[{ text_frame_text := some "Hello" },
                { text_frame_text := none },
                { text_frame_text := some "" }]] }

/-- Environment in which the deviation judge always answers the literal
"None" and the deck file holds one readable slide. -/
def envNoDeviation : Env :=
  { envNull with
    deviation_response := fun _ _ => some "None"
    deck_file := some pdeckA }

/-- Application state mid-listening: three buffered utterances, an active
one-slide show at position 1, nothing tracked. -/
def sListening : AppState :=
  { is_running := true, is_checking := true, has_updater := true,
    speech_buffer := ["alpha", "beta", "gamma"],
    generated_slide_indices := ∅, style_guide := sgA,
    pres := some { slides := [{ shapes := [] }], showPosition := 1 },
    status := Status.listening }

/-- Application state with no active presentation (the show was closed). -/
def sNoPres : AppState :=
  { is_running := true, is_checking := false, has_updater := true,
    speech_buffer := [], generated_slide_indices := ∅, style_guide := sgA,
    pres := none, status := Status.listening }

/-- Application state with only two buffered utterances. -/
def sShortBuffer : AppState :=
  { is_running := true, is_checking := true, has_updater := true,
    speech_buffer := ["only", "two"], generated_slide_indices := ∅,
    style_guide := sgA,
    pres := some { slides := [{ shapes := [] }], showPosition := 1 },
    status := Status.listening }

/-- Well-formed generated content without any visual. -/
def contentSimple : ContentJson :=
  { title := some "Transit", points := ["point one"],
    image_suggestion := none, layout := some "text_only", chart_data := none }

/-- Parser fixture recognising the serialized form of `contentSimple`. -/
def loadsSimple : String → Option ContentJson :=
  fun t => if t = "\x7bsimple\x7d" then some contentSimple else none

/-- Environment whose model reply parses to `contentSimple`. -/
def envGenOk : Env :=
  { envNull with
    loads := loadsSimple
    content_response := fun _ => some "\x7bsimple\x7d" }

/-- Environment whose model reply contains no JSON object at all. -/
def envMalformed : Env :=
  { envNull with
    content_response := fun _ => some "The model rambled with no structured data at all." }

/-- Insert-path apply request at current index 2. -/
def reqInsert : ApplyReq := { topic := "New transit topic", slide_index := 2, is_update := false }

/-- Chart specification fixture. -/
def chartA : ChartSpec :=
  { type := some "bar", labels := ["q1", "q2"], values := [5, 9], title := some "Revenue" }

/-- Generated content carrying BOTH a chart specification and an image
suggestion, with a layout that does not indicate a visual. -/
def contentBoth : ContentJson :=
  { title := some "Revenue", points := ["grew"],
    image_suggestion := some "money icon", layout := some "text_only",
    chart_data := some chartA }

/-- Parser fixture recognising the serialized form of `contentBoth`. -/
def loadsBoth : String → Option ContentJson :=
  fun t => if t = "\x7bboth\x7d" then some contentBoth else none

/-- Eleven-word deviation reply. -/
def elevenWordTopic : String :=
  "alpha beta gamma delta epsilon zeta eta theta iota kappa lambda"

/-- Word count in the sense of the prompt's bound: split on spaces,
ignoring empty fragments. -/
def wordCount (s : String) : Nat :=
  ((splitOnChar ' ' s.toList).filter (fun w => w ≠ [])).length

/-- Eleven pushed utterances. -/
def elevenUtterances : List String :=
  ["u01", "u02", "u03", "u04", "u05", "u06", "u07", "u08", "u09", "u10", "u11"]

/-- The interleaving in which the second apply thread mutates the deck
before the first one does. -/
def schedInterleaved : List ApplyPhase :=
  [ApplyPhase.generate 0, ApplyPhase.generate 1, ApplyPhase.mutate 1, ApplyPhase.mutate 0]

/-! ### Theorems -/

/-- C1 counterexample: the schedule gen 0, gen 1, mut 1, mut 0 of two
back-to-back apply requests is admitted by the code (handle_update takes no
lock and consults no in-flight flag before spawning `_generate_and_apply`),
and in it the second request begins mutating the deck before the first has
finished — execution is not strictly sequential. -/
theorem second_apply_can_mutate_first :
    apply_schedule_admitted schedInterleaved = true ∧
    second_mutates_before_first_done schedInterleaved = true := by
  decide

/-- C1 (amended): only detection cycles are serialized — periodic_check
refuses to spawn while a check is in flight — but apply runs are not:
handle_update's spawn guard is constantly true, and consequently a schedule
in which the second apply request mutates the deck before the first has
finished is admitted by the code. -/
theorem apply_runs_not_serialized :
    (∀ s : AppState, handle_update_spawn_guard s = true) ∧
    (∀ s : AppState, periodic_check_spawn_guard { s with is_checking := true } = false) ∧
    ∃ sched : List ApplyPhase, apply_schedule_admitted sched = true ∧
      second_mutates_before_first_done sched = true := by
  refine ⟨fun _ => rfl, fun s => ?_, ⟨schedInterleaved, by decide⟩⟩
  simp [periodic_check_spawn_guard]

/-- C3 counterexample: an insert-path apply whose deck mutation fails
(no active presentation) still registers index current+1 = 3 in the
tracked-slide set, which was empty before. -/
theorem failed_insert_still_registers :
    (_generate_and_apply envGenOk reqInsert sNoPres).pres = none ∧
    (_generate_and_apply envGenOk reqInsert sNoPres).generated_slide_indices = {3} ∧
    sNoPres.generated_slide_indices = ∅ := by
  decide

/-- C3 (amended): on the insert path, once content generation succeeds the
index current+1 is registered in the tracked-slide set unconditionally —
in particular even when the deck mutation fails because no active
presentation is found, in which case the deck is left unchanged but the
index is registered anyway; on success too the registered index is exactly
current+1. -/
theorem insert_registration_unconditional (env : Env) (req : ApplyReq)
    (s : AppState) (content : ContentJson)
    (hgen : generate_slide_content env.loads (env.content_response req.topic) = some content)
    (hins : req.is_update = false) :
    (_generate_and_apply env req s).generated_slide_indices
        = insert (req.slide_index + 1) s.generated_slide_indices ∧
    (s.pres = none → (_generate_and_apply env req s).pres = none) := by
  unfold _generate_and_apply
  rw [hgen, hins]
  refine ⟨rfl, fun h => ?_⟩
  rw [h]
  rfl

/-- Witness for `insert_registration_unconditional` at a concrete failing
insert. -/
theorem insert_registration_unconditional_witness :
    (_generate_and_apply envGenOk reqInsert sNoPres).generated_slide_indices
        = insert (reqInsert.slide_index + 1) sNoPres.generated_slide_indices ∧
    (sNoPres.pres = none → (_generate_and_apply envGenOk reqInsert sNoPres).pres = none) :=
  insert_registration_unconditional envGenOk reqInsert sNoPres contentSimple
    (by decide) rfl

/-- C4: when content generation yields a null or malformed structured
result, the apply run leaves the speech buffer, the tracked-slide set and
the deck untouched — the only change is the failure status report. -/
theorem failed_generation_no_mutation (env : Env) (req : ApplyReq) (s : AppState)
    (h : generate_slide_content env.loads (env.content_response req.topic) = none) :
    _generate_and_apply env req s = { s with status := Status.failedGenerate } := by
  unfold _generate_and_apply
  rw [h]

/-- Witness for `failed_generation_no_mutation`: a model reply with no
extractable JSON object leads to the failure status and no other change. -/
theorem failed_generation_no_mutation_witness :
    _generate_and_apply envMalformed reqInsert sListening
      = { sListening with status := Status.failedGenerate } :=
  failed_generation_no_mutation envMalformed reqInsert sListening (by decide)

/-- C5: the update path is idempotent — applying the same content to the
same slide twice in succession produces the same presentation (hence the
same visible shape set) as applying it once, because each update first
deletes every existing shape and lays the content out fresh. -/
theorem update_path_idempotent (env : Env) (pres : Option Pres) (slide_index : Nat)
    (content_json : ContentJson) (style_guide : StyleGuide) :
    update_existing_slide env
        (update_existing_slide env pres slide_index content_json style_guide)
        slide_index content_json style_guide
      = update_existing_slide env pres slide_index content_json style_guide := by
  cases pres with
  | none => rfl
  | some p =>
    by_cases h : 1 ≤ slide_index ∧ slide_index ≤ p.slides.length
    · have h1 : update_existing_slide env (some p) slide_index content_json style_guide
          = some { slides := p.slides.set (slide_index - 1)
                     { shapes := _add_content_to_slide env content_json style_guide [] },
                   showPosition := slide_index } := by
        simp only [update_existing_slide]
        rw [if_pos h]
      rw [h1]
      simp only [update_existing_slide]
      rw [if_pos (by simpa using h)]
      simp [List.set_set]
    · have h1 : update_existing_slide env (some p) slide_index content_json style_guide
          = some p := by
        simp only [update_existing_slide]
        rw [if_neg h]
      rw [h1]
      exact h1

/-- C6 counterexample: generation performs no validation of the generated
object, so a model reply whose JSON carries both a chart specification and
an image suggestion — and a layout that does not indicate a visual — is
returned as-is to be consumed by the slide builder. -/
theorem generation_returns_conflicting_content :
    generate_slide_content loadsBoth (some "reply: \x7bboth\x7d") = some contentBoth ∧
    contentBoth.chart_data.isSome = true ∧
    contentBoth.image_suggestion.isSome = true ∧
    contentBoth.layout ≠ some "text_left_visual_right" := by
  decide

/-- C6 (amended): mutual exclusivity of chart specification and image
suggestion is requested in the prompt but not enforced by the code; the
builder resolves a conflicting SlideContent by prioritizing the chart — when
chart data is present the image suggestion is never consulted. -/
theorem chart_priority_resolves_conflict (env : Env) (c : ContentJson) (cd : ChartSpec)
    (h : c.chart_data = some cd) :
    resolve_visual env c = env.create_chart cd := by
  unfold resolve_visual
  rw [h]

/-- Witness for `chart_priority_resolves_conflict` at the conflicting
content fixture. -/
theorem chart_priority_resolves_conflict_witness :
    resolve_visual envNull contentBoth = envNull.create_chart chartA :=
  chart_priority_resolves_conflict envNull contentBoth chartA rfl

/-- Pushing never grows the buffer past the capacity. -/
theorem bufferPush_length_le (buf : List String) (x : String)
    (h : buf.length ≤ SPEECH_BUFFER_CAPACITY) :
    (bufferPush buf x).length ≤ SPEECH_BUFFER_CAPACITY := by
  unfold bufferPush SPEECH_BUFFER_CAPACITY at *
  split
  next hfull =>
    cases buf with
    | nil => simp at hfull
    | cons b bs =>
      simp only [List.tail_cons, List.length_append, List.length_cons,
        List.length_nil] at *
      omega
  next hfull =>
    simp only [List.length_append, List.length_cons, List.length_nil]
    omega

/-- One push, expressed as drop over the appended list. -/
theorem bufferPush_eq_drop (buf : List String) (x : String)
    (h : buf.length ≤ SPEECH_BUFFER_CAPACITY) :
    bufferPush buf x = (buf ++ [x]).drop (buf.length + 1 - SPEECH_BUFFER_CAPACITY) := by
  unfold bufferPush SPEECH_BUFFER_CAPACITY at *
  split
  next hfull =>
    have h10 : buf.length = 10 := le_antisymm h hfull
    cases buf with
    | nil => simp at h10
    | cons b bs =>
      have hd : (b :: bs).length + 1 - 10 = 1 := by omega
      rw [hd]
      simp
  next hfull =>
    have hd : buf.length + 1 - 10 = 0 := by omega
    rw [hd]
    simp

/-- Folding a push sequence into a valid buffer keeps exactly the most
recent capacity-many entries of the combined stream, in order. -/
theorem bufferPushAll_eq_drop (xs : List String) (buf : List String)
    (h : buf.length ≤ SPEECH_BUFFER_CAPACITY) :
    bufferPushAll buf xs
      = (buf ++ xs).drop (buf.length + xs.length - SPEECH_BUFFER_CAPACITY) := by
  induction xs generalizing buf with
  | nil =>
    have hd : buf.length - SPEECH_BUFFER_CAPACITY = 0 := by
      unfold SPEECH_BUFFER_CAPACITY at *
      omega
    simp [bufferPushAll, hd]
  | cons x xs ih =>
    have hstep := bufferPush_eq_drop buf x h
    have hlen : (bufferPush buf x).length ≤ SPEECH_BUFFER_CAPACITY :=
      bufferPush_length_le buf x h
    have hk : buf.length + 1 - SPEECH_BUFFER_CAPACITY ≤ (buf ++ [x]).length := by
      simp only [List.length_append, List.length_cons, List.length_nil]
      omega
    have hsplit : bufferPush buf x ++ xs
        = ((buf ++ [x]) ++ xs).drop (buf.length + 1 - SPEECH_BUFFER_CAPACITY) := by
      rw [hstep, List.drop_append_of_le_length hk]
    have hblen := congrArg List.length hstep
    simp only [List.length_drop, List.length_append, List.length_cons,
      List.length_nil] at hblen
    calc bufferPushAll buf (x :: xs)
        = bufferPushAll (bufferPush buf x) xs := rfl
      _ = (bufferPush buf x ++ xs).drop
            ((bufferPush buf x).length + xs.length - SPEECH_BUFFER_CAPACITY) := ih _ hlen
      _ = (((buf ++ [x]) ++ xs).drop (buf.length + 1 - SPEECH_BUFFER_CAPACITY)).drop
            ((bufferPush buf x).length + xs.length - SPEECH_BUFFER_CAPACITY) := by
            rw [hsplit]
      _ = (buf ++ x :: xs).drop (buf.length + (x :: xs).length - SPEECH_BUFFER_CAPACITY) := by
            rw [List.drop_drop, List.append_assoc, List.singleton_append]
            congr 1
            simp only [List.length_cons]
            unfold SPEECH_BUFFER_CAPACITY at *
            omega

/-- C8: for every push sequence longer than the capacity 10, the speech
buffer (starting empty, as at startup) retains exactly the 10 most recently
pushed utterances in arrival order — its length is then exactly 10, the
length never exceeds 10 for any push sequence, and the oldest entries are
silently dropped. -/
theorem speech_buffer_sliding_window (xs : List String)
    (h : SPEECH_BUFFER_CAPACITY < xs.length) :
    bufferPushAll [] xs = xs.drop (xs.length - SPEECH_BUFFER_CAPACITY) ∧
    (bufferPushAll [] xs).length = SPEECH_BUFFER_CAPACITY ∧
    ∀ ys : List String, (bufferPushAll [] ys).length ≤ SPEECH_BUFFER_CAPACITY := by
  have hmain := bufferPushAll_eq_drop xs ([] : List String) (by simp)
  simp only [List.nil_append, List.length_nil, Nat.zero_add] at hmain
  refine ⟨hmain, ?_, ?_⟩
  · rw [hmain]
    simp only [List.length_drop]
    omega
  · intro ys
    have hy := bufferPushAll_eq_drop ys ([] : List String) (by simp)
    simp only [List.nil_append, List.length_nil, Nat.zero_add] at hy
    rw [hy]
    simp only [List.length_drop]
    omega

/-- Witness for `speech_buffer_sliding_window` at eleven concrete pushes:
the buffer ends as the last ten utterances, of length exactly 10. -/
theorem speech_buffer_sliding_window_witness :
    bufferPushAll [] elevenUtterances
        = elevenUtterances.drop (elevenUtterances.length - SPEECH_BUFFER_CAPACITY) ∧
    (bufferPushAll [] elevenUtterances).length = SPEECH_BUFFER_CAPACITY :=
  ⟨(speech_buffer_sliding_window elevenUtterances (by decide)).1,
   (speech_buffer_sliding_window elevenUtterances (by decide)).2.1⟩

/-- C7 counterexample: an eleven-word judgment is returned as a deviation
topic — the ten-word bound on the label is part of the prompt, not of the
code. -/
theorem deviation_topic_exceeds_ten_words :
    check_for_deviation (some elevenWordTopic) = some elevenWordTopic ∧
    10 < wordCount elevenWordTopic := by
  decide

/-- C7 (amended): the detector is fail-safe and a returned topic is a
non-empty label that is not the literal "none" case-insensitively; an empty
reply, a reply whose last line is "None", and any fault during the check
all yield no deviation — but the ten-word bound on the label is not
enforced by the code. -/
theorem check_for_deviation_failsafe (response : Option String) (topic : String)
    (h : check_for_deviation response = some topic) :
    (topic ≠ "" ∧ pyLower topic ≠ "none") ∧
    check_for_deviation none = none ∧
    check_for_deviation (some "") = none ∧
    check_for_deviation (some "None") = none := by
  refine ⟨?_, rfl, by decide, by decide⟩
  cases response with
  | none => simp [check_for_deviation] at h
  | some text =>
    simp only [check_for_deviation] at h
    cases hl : (pySplitlines (pyTrim text)).getLast? with
    | none =>
      rw [hl] at h
      simp at h
    | some line =>
      rw [hl] at h
      simp only [] at h
      by_cases hc : pyLower (pyTrim line) ≠ "none" ∧ (pyTrim line).length > 0
      · rw [if_pos hc] at h
        have ht : pyTrim line = topic := by
          injection h
        rw [ht] at hc
        refine ⟨?_, hc.1⟩
        intro he
        rw [he] at hc
        simp at hc
      · rw [if_neg hc] at h
        simp at h

/-- Witness for `check_for_deviation_failsafe` at a concrete accepted
reply. -/
theorem check_for_deviation_failsafe_witness :
    (("Electric cars" : String) ≠ "" ∧ pyLower "Electric cars" ≠ "none") ∧
    check_for_deviation none = none ∧
    check_for_deviation (some "") = none ∧
    check_for_deviation (some "None") = none :=
  check_for_deviation_failsafe (some "Electric cars") "Electric cars" (by decide)

/-- C9: a detection cycle entered with fewer than 3 buffered utterances, or
with no currently displayed slide (no index, or the falsy index 0), is a
no-op: it performs no deviation check (the result does not depend on the
environment), clears nothing, mutates nothing, and dispatches no apply —
only the cycle's own in-flight flag is reset. -/
theorem sparse_or_slideless_cycle_noop (env : Env) (s : AppState)
    (h : s.speech_buffer.length < 3 ∨ get_current_slide_index s.pres = none ∨
         get_current_slide_index s.pres = some 0) :
    run_deviation_check env s = ({ s with is_checking := false }, none) := by
  simp only [run_deviation_check]
  split
  · rfl
  next hcond =>
    have hne : ¬ s.speech_buffer.length < 3 := by
      intro hlt
      simp [hlt] at hcond
    split
    · rfl
    next current_index hidx =>
      rcases h with h | h | h
      · exact absurd h hne
      · rw [h] at hidx
        cases hidx
      · rw [h] at hidx
        have h0 : current_index = 0 := by
          injection hidx with hx
          exact hx.symm
        rw [if_pos h0]

/-- Witness for `sparse_or_slideless_cycle_noop` at a two-utterance
buffer. -/
theorem sparse_or_slideless_cycle_noop_witness :
    run_deviation_check envNull sShortBuffer
      = ({ sShortBuffer with is_checking := false }, none) :=
  sparse_or_slideless_cycle_noop envNull sShortBuffer (Or.inl (by decide))

/-- C2 counterexample: a detection cycle that reads a 3-utterance buffer,
performs the deviation check, and finds no deviation does NOT clear the
buffer — an immediately following snapshot is the original non-empty
content, refuting "the buffer is emptied regardless of whether the cycle
found a deviation". -/
theorem no_deviation_cycle_keeps_buffer :
    (run_deviation_check envNoDeviation sListening).1.speech_buffer
        = ["alpha", "beta", "gamma"] ∧
    (run_deviation_check envNoDeviation sListening).2 = none ∧
    ["alpha", "beta", "gamma"] ≠ ([] : List String) := by
  decide

/-- C2 (amended): the speech buffer is consumed and emptied exactly when
the detection cycle finds a deviation (and dispatches an apply request); a
cycle that finds no deviation leaves the buffer unchanged, so a second
immediate snapshot is empty only after a deviation was detected. -/
theorem buffer_cleared_iff_deviation (env : Env) (s : AppState) :
    ((run_deviation_check env s).2.isSome = true →
        (run_deviation_check env s).1.speech_buffer = []) ∧
    ((run_deviation_check env s).2 = none →
        (run_deviation_check env s).1.speech_buffer = s.speech_buffer) := by
  simp only [run_deviation_check]
  split
  · exact ⟨fun hc => by simp at hc, fun _ => rfl⟩
  · split
    · exact ⟨fun hc => by simp at hc, fun _ => rfl⟩
    · split
      · exact ⟨fun hc => by simp at hc, fun _ => rfl⟩
      · split
        · exact ⟨fun _ => rfl, fun hc => by simp at hc⟩
        · exact ⟨fun hc => by simp at hc, fun _ => rfl⟩

/-- Witness for `buffer_cleared_iff_deviation`: a concrete no-deviation
cycle leaves the buffer as it was. -/
theorem buffer_cleared_iff_deviation_witness :
    (run_deviation_check envNoDeviation sListening).1.speech_buffer
      = sListening.speech_buffer :=
  (buffer_cleared_iff_deviation envNoDeviation sListening).2 (by decide)

/-- C10: slide-text extraction is total at the public interface: the empty
string is returned when the deck file is missing or unreadable and when the
1-based index is out of range; for an in-range index the result is the
non-empty text-frame texts of that slide's shapes joined by newlines. -/
theorem get_text_from_slide_total (deck : Option PptxDeck) (slide_index : Int) :
    (deck = none → get_text_from_slide deck slide_index = "") ∧
    (∀ prs : PptxDeck, deck = some prs →
      (¬(0 < slide_index ∧ slide_index ≤ prs.slides.length) →
        get_text_from_slide deck slide_index = "") ∧
      ((0 < slide_index ∧ slide_index ≤ prs.slides.length) →
        get_text_from_slide deck slide_index
          = String.intercalate "\n"
              ((prs.slides.getD (slide_index - 1).toNat []).filterMap
                (fun sh => match sh.text_frame_text with
                  | some t => if t = "" then none else some t
                  | none => none)))) := by
  constructor
  · intro h
    rw [h]
    rfl
  · intro prs h
    subst h
    constructor
    · intro hrange
      simp only [get_text_from_slide]
      rw [if_neg hrange]
    · intro hrange
      simp only [get_text_from_slide]
      rw [if_pos hrange]

/-- Witness for `get_text_from_slide_total` at the concrete one-slide deck:
the empty-text and missing-text-frame shapes contribute nothing. -/
theorem get_text_from_slide_total_witness :
    get_text_from_slide (some pdeckA) 1 = "Hello" := by
  have h := ((get_text_from_slide_total (some pdeckA) 1).2 pdeckA rfl).2 (by decide)
  rw [h]
  decide

end SlideEnhancer
